import Mathlib

/-!
Shallow embedding of the Identity & Access Control subsystem of the
Academic-Records backend: the role→MSP mapping (`src/utils/mspMapper.js`),
the access-control middleware (`src/middleware/auth.js`), the flat-file
credential store (`src/utils/userManager.js`), and the token issuance /
refresh / revocation flow (`src/controllers/authController.js`).

JavaScript nullable strings are modelled as `Option String` (with `none`
for `null`), and JavaScript truthiness of a nullable string (`!x`) as
`jsTruthy`: `null` and the empty string are falsy.  The `bcrypt` library
and `Date.now()` are external collaborators, passed in as explicit
function / value parameters.
-/

namespace AcademicRecords

/-- JS truthiness of a nullable string: `null` and `""` are falsy. -/
def jsTruthy : Option String → Bool
  | none => false
  | some s => s ≠ ""

/-- The JS expression `x || null` on a nullable string: a falsy value
(`null` or `""`) becomes `null`, anything else is kept. -/
def jsOrNull (s : Option String) : Option String :=
  if jsTruthy s then s else none

/-- `String.prototype.toUpperCase()` on the ASCII department codes and
roll numbers this system manipulates: character-wise uppercasing. -/
def jsToUpper (s : String) : String :=
  ⟨s.data.map Char.toUpper⟩

/-- Decidable equality of `Except` results, so concrete scenarios can
be settled by evaluation. -/
instance instDecidableEqExcept {ε α : Type} [DecidableEq ε]
    [DecidableEq α] : DecidableEq (Except ε α) := fun x y =>
  match x, y with
  | .ok a, .ok b =>
    if h : a = b then .isTrue (by rw [h])
    else .isFalse (fun hc => h (by injection hc))
  | .error e, .error f =>
    if h : e = f then .isTrue (by rw [h])
    else .isFalse (fun hc => h (by injection hc))
  | .ok _, .error _ => .isFalse (fun hc => Except.noConfusion hc)
  | .error _, .ok _ => .isFalse (fun hc => Except.noConfusion hc)

/-! ### mspMapper.js -/

/-- `ROLE_TO_MSP` lookup from `src/utils/mspMapper.js` lines 14-19:
admin and student map to `NITWarangalMSP`, department to
`DepartmentsMSP`, verifier to `VerifiersMSP`; no other key is present. -/
def ROLE_TO_MSP (role : String) : Option String :=
  if role = "admin" then some "NITWarangalMSP"
  else if role = "student" then some "NITWarangalMSP"
  else if role = "department" then some "DepartmentsMSP"
  else if role = "verifier" then some "VerifiersMSP"
  else none

/-- `getMSPForRole` (`mspMapper.js` lines 33-35): `ROLE_TO_MSP[role] || null`.
Every value in the table is a non-empty string, so the `|| null` only
turns an absent key into `null`. -/
def getMSPForRole (role : String) : Option String :=
  jsOrNull (ROLE_TO_MSP role)

/-- `isValidRole` (`mspMapper.js` lines 77-79): membership in
`Object.keys(ROLE_TO_MSP)`, i.e. admin, student, department, verifier. -/
def isValidRole (role : String) : Bool :=
  role = "admin" ∨ role = "student" ∨ role = "department" ∨ role = "verifier"

/-! ### Principals and the department-enforcement middleware (auth.js) -/

/-- The request principal built by `authenticateToken` / `optionalAuth`
(`src/middleware/auth.js` lines 26-33): the decoded token fields, with
department and email passed through `|| null`. -/
structure Principal where
  userId : String
  username : String
  role : String
  mspId : Option String
  department : Option String
  email : Option String
deriving DecidableEq

/-- Reasons a request can be rejected by `enforceDepartmentAccess`. -/
inductive DeptReason
  | noAuth
  | noDepartment
  | rollNumberMismatch
  | bodyDepartmentMismatch
deriving DecidableEq

/-- Outcome of `enforceDepartmentAccess`: either the request proceeds to
the handler (`allow`, carrying the `req.departmentFilter` that was set,
if any), or it is rejected with an HTTP status and a reason. -/
inductive DeptDecision
  | allow (departmentFilter : Option String)
  | reject (status : Nat) (reason : DeptReason)
deriving DecidableEq

/-- `enforceDepartmentAccess` (`src/middleware/auth.js` lines 96-155).
Inputs: the authenticated principal (`req.user`, `none` when absent),
`req.params.rollNumber`, and `req.body.department` (both `none` when the
property is absent).  Admin passes unconditionally; the `faculty` branch
rejects a missing department, compares the first two characters of the
roll number against the first two characters of the user's department
(both upper-cased), and compares `req.body.department` against
`req.user.department` with strict equality; every other role falls into
the final `else` and calls `next()` without any check. -/
def enforceDepartmentAccess (user : Option Principal)
    (rollNumberParam : Option String) (bodyDepartment : Option String) :
    DeptDecision :=
  match user with
  | none => .reject 401 .noAuth
  | some u =>
    if u.role = "admin" then .allow none
    else if u.role = "faculty" then
      match u.department with
      | none => .reject 403 .noDepartment
      | some dep =>
        if dep = "" then .reject 403 .noDepartment
        else
          let afterRoll : DeptDecision :=
            if jsTruthy bodyDepartment then
              if bodyDepartment ≠ some dep then
                .reject 403 .bodyDepartmentMismatch
              else .allow (some dep)
            else .allow (some dep)
          match rollNumberParam with
          | none => afterRoll
          | some roll =>
            if roll = "" then afterRoll
            else
              let studentDeptCode := jsToUpper (roll.take 2)
              let userDeptCode := jsToUpper (dep.take 2)
              if studentDeptCode ≠ userDeptCode then
                .reject 403 .rollNumberMismatch
              else afterRoll
    else .allow none

/-! ### Credential store (userManager.js) -/

/-- Persisted account record shape (`data/users.json`, built in
`createUser`, `userManager.js` lines 132-142). -/
structure User where
  id : String
  username : String
  email : String
  passwordHash : String
  role : String
  department : Option String
  createdAt : String
  updatedAt : String
  isActive : Bool
deriving DecidableEq

/-- An account record with the `passwordHash` key removed, as produced by
the destructuring `const \x7b passwordHash: _, ...userWithoutPassword \x7d`
pattern used by the returning paths of `createUser`, `authenticateUser`,
`updateUser` and `getAllUsers`. -/
structure PublicUser where
  id : String
  username : String
  email : String
  role : String
  department : Option String
  createdAt : String
  updatedAt : String
  isActive : Bool
deriving DecidableEq

/-- Drop the `passwordHash` field of a record. -/
def stripUser (u : User) : PublicUser :=
  { id := u.id, username := u.username, email := u.email, role := u.role,
    department := u.department, createdAt := u.createdAt,
    updatedAt := u.updatedAt, isActive := u.isActive }

/-- `findUserByUsername` (`userManager.js` lines 73-76):
`users.find(u => u.username === username) || null`, on the loaded
collection.  The found record is returned as stored. -/
def findUserByUsername (users : List User) (username : String) : Option User :=
  users.find? (fun u => u.username = username)

/-- `findUserByEmail` (`userManager.js` lines 83-86). -/
def findUserByEmail (users : List User) (email : String) : Option User :=
  users.find? (fun u => u.email = email)

/-- `findUserById` (`userManager.js` lines 93-96). -/
def findUserById (users : List User) (id : String) : Option User :=
  users.find? (fun u => u.id = id)

/-- Input object of `createUser` (`userManager.js` line 104): the
destructured `username, password, email, role, department` fields, each a
string (`""` when the caller passed an empty string) except the optional
department. -/
structure UserData where
  username : String
  password : String
  email : String
  role : String
  department : Option String
deriving DecidableEq

/-- The typed errors thrown by `createUser` (`userManager.js` lines
107-126), in source order. -/
inductive CreateError
  | missingFields
  | invalidRole
  | departmentRequired
  | usernameExists (username : String)
  | emailExists (email : String)
deriving DecidableEq

/-- `createUser` (`userManager.js` lines 103-154).  External
collaborators are parameters: `hash` stands for
`bcrypt.hash(·, SALT_ROUNDS)` and `nowMs`/`nowIso` for `Date.now()` and
`new Date().toISOString()`.  Validation order follows the source:
required-field truthiness, `isValidRole`, department required for
faculty/student, username uniqueness, email uniqueness; then the record
is appended and the whole collection saved.  A thrown error leaves the
stored collection untouched, so the error paths return the input list. -/
def createUser (hash : String → String) (nowMs nowIso : String)
    (users : List User) (d : UserData) :
    Except CreateError PublicUser × List User :=
  if d.username = "" ∨ d.password = "" ∨ d.email = "" ∨ d.role = "" then
    (.error .missingFields, users)
  else if ¬ isValidRole d.role then
    (.error .invalidRole, users)
  else if (d.role = "faculty" ∨ d.role = "student") ∧ ¬ jsTruthy d.department then
    (.error .departmentRequired, users)
  else if (findUserByUsername users d.username).isSome then
    (.error (.usernameExists d.username), users)
  else if (findUserByEmail users d.email).isSome then
    (.error (.emailExists d.email), users)
  else
    let newUser : User :=
      { id := d.role ++ "-" ++ nowMs,
        username := d.username,
        email := d.email,
        passwordHash := hash d.password,
        role := d.role,
        department := jsOrNull d.department,
        createdAt := nowIso,
        updatedAt := nowIso,
        isActive := true }
    (.ok (stripUser newUser), users ++ [newUser])

/-- The identifier resolution of `authenticateUser` (`userManager.js`
lines 164-167): try email first, then username. -/
def resolveUser (users : List User) (identifier : String) : Option User :=
  match findUserByEmail users identifier with
  | some u => some u
  | none => findUserByUsername users identifier

/-- `authenticateUser` (`userManager.js` lines 162-192).  `compare`
stands for `bcrypt.compare`.  Every failure (unknown identifier,
inactive account, wrong password) returns the same `none`; on success
the record is returned without its hash. -/
def authenticateUser (compare : String → String → Bool)
    (users : List User) (identifier password : String) : Option PublicUser :=
  match resolveUser users identifier with
  | none => none
  | some u =>
    if ¬ u.isActive then none
    else if ¬ compare password u.passwordHash then none
    else some (stripUser u)

/-- The `updates` object of `updateUser` (`userManager.js` line 200).
A `some` value means the property is present on the object (the source
tests `updates[key] !== undefined`); `department` may be present with
value `null`, hence the nested option.  The fields `id`, `username`,
`role` and `createdAt` may also be supplied by the caller; the sanitizer
ignores them. -/
structure UpdateData where
  email : Option String
  department : Option (Option String)
  isActive : Option Bool
  password : Option String
  id : Option String
  username : Option String
  role : Option String
  createdAt : Option String
deriving DecidableEq

/-- The record merge performed by `updateUser` (`userManager.js` lines
208-228): copy the allowed keys (`email`, `department`, `isActive`) when
present, re-hash a truthy `password` into `passwordHash`, and stamp
`updatedAt`; every other field of the stored record is spread through
unchanged. -/
def applyUpdates (hash : String → String) (nowIso : String)
    (upd : UpdateData) (u : User) : User :=
  { u with
    email := upd.email.getD u.email,
    department := upd.department.getD u.department,
    isActive := upd.isActive.getD u.isActive,
    passwordHash :=
      if jsTruthy upd.password then hash (upd.password.getD "")
      else u.passwordHash,
    updatedAt := nowIso }

/-- Replace the first element satisfying `p` by its image under `f`,
returning the new element and the new list; `none` when no element
matches.  This is the `findIndex` / `users[userIndex] = ...` pattern of
`updateUser`. -/
def updateFirst (p : User → Bool) (f : User → User) :
    List User → Option (User × List User)
  | [] => none
  | x :: xs =>
    if p x then some (f x, f x :: xs)
    else match updateFirst p f xs with
      | none => none
      | some (r, ys) => some (r, x :: ys)

/-- Error thrown by `updateUser` when `findIndex` returns `-1`. -/
inductive UpdateError
  | notFound
deriving DecidableEq

/-- `updateUser` (`userManager.js` lines 200-236): locate the record by
id, merge the sanitized updates, persist, and return the merged record
without its hash.  A `User not found` throw leaves the collection
untouched. -/
def updateUser (hash : String → String) (nowIso : String)
    (users : List User) (userId : String) (upd : UpdateData) :
    Except UpdateError PublicUser × List User :=
  match updateFirst (fun u => u.id = userId) (applyUpdates hash nowIso upd) users with
  | none => (.error .notFound, users)
  | some (newU, users') => (.ok (stripUser newU), users')

/-- Filter object of `getAllUsers` (`userManager.js` line 266). -/
structure UserFilters where
  role : Option String
  department : Option String
  isActive : Option Bool
deriving DecidableEq

/-- `getAllUsers` (`userManager.js` lines 266-282): apply the truthy
`role` and `department` filters and the present `isActive` filter, then
map every record through the hash-stripping destructuring. -/
def getAllUsers (users : List User) (f : UserFilters) : List PublicUser :=
  let us1 : List User :=
    if jsTruthy f.role then users.filter (fun u => some u.role = f.role)
    else users
  let us2 : List User :=
    if jsTruthy f.department then us1.filter (fun u => u.department = f.department)
    else us1
  let us3 : List User :=
    match f.isActive with
    | some b => us2.filter (fun u => u.isActive = b)
    | none => us2
  us3.map stripUser

/-! ### Token service (authController.js) and token middleware (auth.js) -/

/-- JWT access-token payload (`authController.js` lines 24-31 plus the
standard `iat`/`exp` claims added by `jwt.sign`). -/
structure TokenPayload where
  userId : String
  username : String
  role : String
  mspId : Option String
  department : Option String
  email : Option String
deriving DecidableEq

/-- A signed JWT, modelled as its payload together with the signing key
and the issuance/expiry timestamps (`iat`, `exp`, in seconds). -/
structure SignedToken where
  payload : TokenPayload
  key : String
  iat : Nat
  exp : Nat
deriving DecidableEq

/-- `generateAccessToken` (`authController.js` lines 22-35): sign the
user's public fields plus `getMSPForRole(user.role)` with the server
key, expiring `ttl` seconds after `now`. -/
def generateAccessToken (key : String) (now ttl : Nat) (u : User) :
    SignedToken :=
  { payload :=
      { userId := u.id, username := u.username, role := u.role,
        mspId := getMSPForRole u.role, department := u.department,
        email := some u.email },
    key := key, iat := now, exp := now + ttl }

/-- The two failure classes of `jwt.verify`: `JsonWebTokenError` (bad
signature) and `TokenExpiredError`. -/
inductive TokenError
  | invalid
  | expired
deriving DecidableEq

/-- `jwt.verify` on a modelled token: signature (key) check first, then
expiry; the token is accepted while `now < exp`. -/
def verifyToken (key : String) (now : Nat) (t : SignedToken) :
    Except TokenError TokenPayload :=
  if t.key ≠ key then .error .invalid
  else if t.exp ≤ now then .error .expired
  else .ok t.payload

/-- Failure outcomes of the `authenticateToken` middleware
(`auth.js` lines 9-61): missing token (401), expired token (403,
`TOKEN_EXPIRED`), invalid token (403, `INVALID_TOKEN`). -/
inductive AuthFailure
  | noToken
  | tokenExpired
  | invalidToken
deriving DecidableEq

/-- The principal constructed by `authenticateToken` from a decoded
payload (`auth.js` lines 26-33): `department` and `email` are passed
through `decoded.x || null`. -/
def principalOfPayload (p : TokenPayload) : Principal :=
  { userId := p.userId, username := p.username, role := p.role,
    mspId := p.mspId, department := jsOrNull p.department,
    email := jsOrNull p.email }

/-- `authenticateToken` (`auth.js` lines 9-61) on an already-extracted
bearer token (`none` when the header carried no token). -/
def authenticateToken (key : String) (now : Nat)
    (tok : Option SignedToken) : Except AuthFailure Principal :=
  match tok with
  | none => .error .noToken
  | some t =>
    match verifyToken key now t with
    | .ok p => .ok (principalOfPayload p)
    | .error .expired => .error .tokenExpired
    | .error .invalid => .error .invalidToken

/-! ### Refresh-token registry, refresh and logout (authController.js) -/

/-- Payload of a refresh token (`authController.js` lines 44-47):
`userId` and `username` only. -/
structure RefreshPayload where
  userId : String
  username : String
deriving DecidableEq

/-- Failure outcomes of the `refresh` endpoint (`authController.js`
lines 310-373), in source order: missing body field (400), token not in
the registry (403 `Invalid refresh token`), signature/expiry failure
from `jwt.verify` (403), account unknown or inactive (403). -/
inductive RefreshError
  | missingToken
  | revoked
  | refreshExpired
  | invalidRefresh
  | userNotFoundOrInactive
deriving DecidableEq

/-- Server state touched by the refresh flow: the in-memory
`refreshTokens` registry (its key set; the stored metadata plays no role
in any decision) and the credential store. -/
structure AuthState where
  registry : List String
  users : List User
deriving DecidableEq

/-- `refresh` (`authController.js` lines 310-373).  `verify` stands for
`jwt.verify(refreshToken, JWT_SECRET)` on the opaque refresh-token
string.  The registry membership check comes first; a token that fails
it is rejected before any cryptographic check.  When the account is
missing or inactive the token is deleted from the registry; on success
a new access token is generated and the registry is untouched. -/
def refreshCall (verify : String → Except TokenError RefreshPayload)
    (key : String) (now ttl : Nat) (st : AuthState) (rt : Option String) :
    Except RefreshError SignedToken × AuthState :=
  if ¬ jsTruthy rt then (.error .missingToken, st)
  else
    let t := rt.getD ""
    if t ∉ st.registry then (.error .revoked, st)
    else
      match verify t with
      | .error .expired => (.error .refreshExpired, st)
      | .error .invalid => (.error .invalidRefresh, st)
      | .ok p =>
        match findUserByUsername st.users p.username with
        | none =>
          (.error .userNotFoundOrInactive,
            { st with registry := st.registry.filter (fun s => s ≠ t) })
        | some u =>
          if ¬ u.isActive then
            (.error .userNotFoundOrInactive,
              { st with registry := st.registry.filter (fun s => s ≠ t) })
          else (.ok (generateAccessToken key now ttl u), st)

/-- `logout` (`authController.js` lines 379-399): delete the token from
the registry when it is truthy and present; always succeed. -/
def logoutCall (st : AuthState) (rt : Option String) : AuthState :=
  if jsTruthy rt ∧ rt.getD "" ∈ st.registry then
    { st with registry := st.registry.filter (fun s => s ≠ rt.getD "") }
  else st

/-- The operations that can touch the refresh-token registry after a
logout, for the revocation invariant: further refresh attempts and
logouts (token issuance is a separate login and out of scope of the
invariant). -/
inductive AuthOp
  | refreshOp (rt : Option String)
  | logoutOp (rt : Option String)
deriving DecidableEq

/-- Run one registry-touching operation, keeping only the state. -/
def runAuthOp (verify : String → Except TokenError RefreshPayload)
    (key : String) (now ttl : Nat) (st : AuthState) : AuthOp → AuthState
  | .refreshOp rt => (refreshCall verify key now ttl st rt).2
  | .logoutOp rt => logoutCall st rt

/-- Run a sequence of registry-touching operations. -/
def runAuthOps (verify : String → Except TokenError RefreshPayload)
    (key : String) (now ttl : Nat) (st : AuthState) (ops : List AuthOp) :
    AuthState :=
  ops.foldl (runAuthOp verify key now ttl) st

/-! ### Concrete sample data used by the verification scenarios -/

/-- A faculty principal of department CSE. -/
def facultyCSE : Principal :=
  { userId := "f1", username := "prof", role := "faculty",
    mspId := none, department := some "CSE", email := none }

/-- An admin principal. -/
def adminPrincipal : Principal :=
  { userId := "a1", username := "root", role := "admin",
    mspId := some "NITWarangalMSP", department := none, email := none }

/-- A department-role principal with no department assigned. -/
def deptRoleNoDeptPrincipal : Principal :=
  { userId := "d1", username := "depthead", role := "department",
    mspId := some "DepartmentsMSP", department := none, email := none }

/-- A stored account record with a non-empty password hash. -/
def demoUser : User :=
  { id := "u0", username := "alice", email := "alice@nitw.edu",
    passwordHash := "hash-alice", role := "admin", department := none,
    createdAt := "t0", updatedAt := "t0", isActive := true }

/-- A one-account credential store. -/
def demoUsers : List User := [demoUser]

/-- A stored student account whose department is the empty string (the
store can hold one: `updateUser` copies any present `department` value,
including `""`). -/
def emptyDeptUser : User :=
  { id := "s1", username := "stu", email := "stu@nitw.edu",
    passwordHash := "hash-stu", role := "student", department := some "",
    createdAt := "t0", updatedAt := "t0", isActive := true }

/-- A stored student account whose email is the empty string. -/
def emptyEmailUser : User :=
  { id := "s2", username := "stu2", email := "",
    passwordHash := "hash-stu2", role := "student",
    department := some "CSE", createdAt := "t0", updatedAt := "t0",
    isActive := true }

/-- A refresh-token verifier that accepts every token string as
belonging to the demo account: the strongest adversary for the
revocation claim, since revocation must hold even for
cryptographically valid, unexpired tokens. -/
def demoVerify : String → Except TokenError RefreshPayload :=
  fun _ => .ok { userId := "u0", username := "alice" }

/-- A server state whose registry holds one outstanding refresh token. -/
def demoAuthState : AuthState :=
  { registry := ["tok-1"], users := demoUsers }

/-- A stand-in for `bcrypt.hash` in concrete scenarios. -/
def demoHash (password : String) : String := "bcrypt:" ++ password

/-- A registration input for the duplicate-registration scenario. -/
def demoRegData : UserData :=
  { username := "fresh", password := "pw1234", email := "fresh@nitw.edu",
    role := "student", department := some "CSE" }

/-- The record `createUser demoHash "77" "t0" [] demoRegData` appends. -/
def demoCreatedUser : User :=
  { id := "student-77", username := "fresh", email := "fresh@nitw.edu",
    passwordHash := "bcrypt:pw1234", role := "student",
    department := some "CSE", createdAt := "t0", updatedAt := "t0",
    isActive := true }

/-- A stored faculty account for the update-frame scenario. -/
def demoStoredFaculty : User :=
  { id := "u7", username := "bob", email := "bob@nitw.edu",
    passwordHash := "hash-bob", role := "faculty",
    department := some "CSE", createdAt := "t0", updatedAt := "t0",
    isActive := true }

/-- An updates object that changes email and active flag and also tries
to overwrite the protected fields `id`, `username`, `role`,
`createdAt`. -/
def demoUpd : UpdateData :=
  { email := some "bob2@nitw.edu", department := none,
    isActive := some false, password := none, id := some "evil",
    username := some "evil", role := some "admin",
    createdAt := some "evil" }

/-- The record `updateUser demoHash "t1" [demoStoredFaculty] "u7"
demoUpd` produces. -/
def demoUpdatedFaculty : User :=
  { id := "u7", username := "bob", email := "bob2@nitw.edu",
    passwordHash := "hash-bob", role := "faculty",
    department := some "CSE", createdAt := "t0", updatedAt := "t1",
    isActive := false }

/-! ## Theorems -/

/-- C1: the role-to-MSP mapping.  The claim (and the spec) state that
the role `faculty` maps to the Institute namespace `NITWarangalMSP`; the
`ROLE_TO_MSP` table has no `faculty` key at all, so `getMSPForRole
"faculty"` is `null` and `isValidRole "faculty"` is `false` — even
though the code's own error message (`userManager.js` line 112) lists
`faculty` among the valid roles and the middleware has a dedicated
faculty branch.  This theorem records the actual mapping at every role
named by the claim, exhibiting the divergence at `faculty`. -/
theorem c1_getMSPForRole_table :
    getMSPForRole "admin" = some "NITWarangalMSP" ∧
    getMSPForRole "student" = some "NITWarangalMSP" ∧
    getMSPForRole "department" = some "DepartmentsMSP" ∧
    getMSPForRole "verifier" = some "VerifiersMSP" ∧
    getMSPForRole "faculty" = none ∧
    isValidRole "faculty" = false ∧
    getMSPForRole "client" = none := by
  decide

/-- C2: department enforcement on the spec's scenarios.  Every faculty
principal of department CSE is admitted to roll number `CS25B001` and
rejected with the department-mismatch reason for `EC25B001`; every
admin principal is admitted to both. -/
theorem c2_department_enforcement_scenarios (p q : Principal)
    (hrole : p.role = "faculty") (hdep : p.department = some "CSE")
    (hq : q.role = "admin") :
    enforceDepartmentAccess (some p) (some "CS25B001") none
      = .allow (some "CSE") ∧
    enforceDepartmentAccess (some p) (some "EC25B001") none
      = .reject 403 .rollNumberMismatch ∧
    enforceDepartmentAccess (some q) (some "CS25B001") none
      = .allow none ∧
    enforceDepartmentAccess (some q) (some "EC25B001") none
      = .allow none := by
  refine ⟨?_, ?_, ?_, ?_⟩
  · simp only [enforceDepartmentAccess, hrole, hdep]
    decide
  · simp only [enforceDepartmentAccess, hrole, hdep]
    decide
  · simp [enforceDepartmentAccess, hq]
  · simp [enforceDepartmentAccess, hq]

/-- C2 witness: the scenario theorem applied to the concrete CSE
faculty principal and the concrete admin principal. -/
theorem c2_department_enforcement_scenarios_witness :
    enforceDepartmentAccess (some facultyCSE) (some "CS25B001") none
      = .allow (some "CSE") ∧
    enforceDepartmentAccess (some facultyCSE) (some "EC25B001") none
      = .reject 403 .rollNumberMismatch ∧
    enforceDepartmentAccess (some adminPrincipal) (some "CS25B001") none
      = .allow none ∧
    enforceDepartmentAccess (some adminPrincipal) (some "EC25B001") none
      = .allow none :=
  c2_department_enforcement_scenarios facultyCSE adminPrincipal
    (by decide) (by decide) (by decide)

/-- C5 counterexample: a principal whose role is `department` and whose
department is `null` is admitted by `enforceDepartmentAccess` (the
middleware only checks the `faculty` role; every other non-admin role
falls through to `next()`), contradicting the claim that department-role
principals without a department are rejected. -/
theorem c5_department_role_admitted_counterexample :
    enforceDepartmentAccess (some deptRoleNoDeptPrincipal) none none
      = .allow none ∧
    deptRoleNoDeptPrincipal.role = "department" ∧
    deptRoleNoDeptPrincipal.department = none := by
  decide

/-- C5 amended: for every principal whose role is `faculty` and whose
department is null or empty, department enforcement rejects the request
with status 403 and the no-department reason, for every roll-number
parameter and every payload department; department-role principals are
not subject to the check. -/
theorem c5_faculty_without_department_rejected (p : Principal)
    (roll body : Option String) (hrole : p.role = "faculty")
    (hdep : jsTruthy p.department = false) :
    enforceDepartmentAccess (some p) roll body = .reject 403 .noDepartment := by
  have hadmin : ¬ p.role = "admin" := by
    rw [hrole]; decide
  cases hd : p.department with
  | none =>
    simp [enforceDepartmentAccess, hadmin, hrole, hd]
  | some d =>
    have hd' : d = "" := by
      rw [hd] at hdep
      simpa [jsTruthy] using hdep
    simp [enforceDepartmentAccess, hadmin, hrole, hd, hd']

/-- C5 witness: the amended theorem applied to a concrete faculty
principal with no department. -/
theorem c5_faculty_without_department_rejected_witness :
    enforceDepartmentAccess
      (some { facultyCSE with department := none }) (some "CS25B001") none
      = .reject 403 .noDepartment :=
  c5_faculty_without_department_rejected
    { facultyCSE with department := none } (some "CS25B001") none
    (by decide) (by decide)

/-- C6 counterexample: the payload-department comparison is strict
string equality, not case-insensitive.  A faculty principal of
department `CSE` sending a payload department `cse` — equal to the
principal's department case-insensitively — is rejected with the
mismatch reason, contradicting the claimed case-insensitive admission. -/
theorem c6_case_sensitivity_counterexample :
    enforceDepartmentAccess (some facultyCSE) none (some "cse")
      = .reject 403 .bodyDepartmentMismatch ∧
    jsToUpper "cse" = jsToUpper "CSE" := by
  decide

/-- C6 amended: for every faculty principal with a non-empty department
and every request with no roll-number parameter and a non-empty payload
department, the department check admits the request if and only if the
payload department equals the principal's department exactly
(case-sensitively); on mismatch it rejects with the explicit
payload-mismatch reason.  Non-admin roles other than faculty are not
compared against the payload at all. -/
theorem c6_faculty_body_department_exact (p : Principal) (dep b : String)
    (hrole : p.role = "faculty") (hdep : p.department = some dep)
    (hdep' : dep ≠ "") (hb : b ≠ "") :
    (enforceDepartmentAccess (some p) none (some b) = .allow (some dep)
      ↔ b = dep) ∧
    (b ≠ dep →
      enforceDepartmentAccess (some p) none (some b)
        = .reject 403 .bodyDepartmentMismatch) := by
  have hadmin : ¬ p.role = "admin" := by
    rw [hrole]; decide
  by_cases hbd : b = dep
  · subst hbd
    constructor
    · simp [enforceDepartmentAccess, hadmin, hrole, hdep, hdep', jsTruthy, hb]
    · intro hcontra; exact absurd rfl hcontra
  · have hne : some b ≠ some dep := by
      intro hcontra; exact hbd (Option.some.injEq b dep ▸ hcontra)
    constructor
    · simp [enforceDepartmentAccess, hadmin, hrole, hdep, hdep', jsTruthy, hb, hne, hbd]
    · intro _
      simp [enforceDepartmentAccess, hadmin, hrole, hdep, hdep', jsTruthy, hb, hne]

/-- C6 witness: the amended theorem applied to the CSE faculty
principal with a matching and a mismatching payload department. -/
theorem c6_faculty_body_department_exact_witness :
    (enforceDepartmentAccess (some facultyCSE) none (some "CSE")
        = .allow (some "CSE") ↔ ("CSE" : String) = "CSE") ∧
    (("CSE" : String) ≠ "CSE" →
      enforceDepartmentAccess (some facultyCSE) none (some "CSE")
        = .reject 403 .bodyDepartmentMismatch) :=
  c6_faculty_body_department_exact facultyCSE "CSE" "CSE"
    (by decide) (by decide) (by decide) (by decide)

/-- A string is never a member of the list obtained by filtering it
out.  This is the effect of `refreshTokens.delete(t)` on the key set. -/
theorem not_mem_filter_ne_self (l : List String) (t : String) :
    t ∉ l.filter (fun s => s ≠ t) := by
  intro h
  have h' := List.of_mem_filter h
  simp at h'

/-- Filtering never adds members: a token absent from the registry is
still absent after any deletion. -/
theorem not_mem_filter_of_not_mem (l : List String) (p : String → Bool)
    (t : String) (h : t ∉ l) : t ∉ l.filter p :=
  fun hmem => h (List.mem_of_mem_filter hmem)

/-- The refresh endpoint never adds a token to the registry: a token
absent before a `refresh` call (for any argument) is absent after it. -/
theorem not_mem_registry_after_refresh
    (verify : String → Except TokenError RefreshPayload) (key : String)
    (now ttl : Nat) (st : AuthState) (rt : Option String) (x : String)
    (h : x ∉ st.registry) :
    x ∉ ((refreshCall verify key now ttl st rt).2).registry := by
  unfold refreshCall
  split
  · exact h
  · dsimp only
    split
    · exact h
    · split
      · exact h
      · exact h
      · split
        · exact not_mem_filter_of_not_mem _ _ _ h
        · split
          · exact not_mem_filter_of_not_mem _ _ _ h
          · exact h

/-- The logout endpoint never adds a token to the registry. -/
theorem not_mem_registry_after_logout (st : AuthState)
    (rt : Option String) (x : String) (h : x ∉ st.registry) :
    x ∉ (logoutCall st rt).registry := by
  unfold logoutCall
  split
  · exact not_mem_filter_of_not_mem _ _ _ h
  · exact h

/-- Absence from the registry is preserved by every refresh or logout
operation. -/
theorem not_mem_registry_after_op
    (verify : String → Except TokenError RefreshPayload) (key : String)
    (now ttl : Nat) (st : AuthState) (op : AuthOp) (x : String)
    (h : x ∉ st.registry) :
    x ∉ (runAuthOp verify key now ttl st op).registry := by
  cases op with
  | refreshOp rt => exact not_mem_registry_after_refresh verify key now ttl st rt x h
  | logoutOp rt => exact not_mem_registry_after_logout st rt x h

/-- Absence from the registry is preserved by every sequence of refresh
and logout operations. -/
theorem not_mem_registry_after_ops
    (verify : String → Except TokenError RefreshPayload) (key : String)
    (now ttl : Nat) (st : AuthState) (ops : List AuthOp) (x : String)
    (h : x ∉ st.registry) :
    x ∉ (runAuthOps verify key now ttl st ops).registry := by
  induction ops generalizing st with
  | nil => exact h
  | cons op ops ih =>
    exact ih _ (not_mem_registry_after_op verify key now ttl st op x h)

/-- A non-empty refresh token absent from the registry is rejected by
the refresh endpoint with the registry-miss (revoked) error, before any
signature or expiry check, and the state is unchanged. -/
theorem refresh_rejects_unregistered
    (verify : String → Except TokenError RefreshPayload) (key : String)
    (now ttl : Nat) (st : AuthState) (rt : String) (hne : rt ≠ "")
    (h : rt ∉ st.registry) :
    refreshCall verify key now ttl st (some rt) = (.error .revoked, st) := by
  unfold refreshCall
  simp [jsTruthy, hne, h]

/-- After a logout of a non-empty token `rt`, the token `rt` is no
longer in the registry. -/
theorem not_mem_registry_after_own_logout (st : AuthState) (rt : String)
    (hne : rt ≠ "") :
    rt ∉ (logoutCall st (some rt)).registry := by
  unfold logoutCall
  split
  · exact not_mem_filter_ne_self st.registry rt
  · rename_i hcond
    intro hmem
    exact hcond ⟨by simp [jsTruthy, hne], by simpa using hmem⟩

/-- C3: revocation is effective and registry-based.  First conjunct: any
non-empty refresh token absent from the in-memory registry is rejected
by `refresh` with the registry-miss error, whatever `jwt.verify` would
say about it — in particular for a cryptographically valid, unexpired
token.  Second conjunct: after `logout(rt)`, every subsequent
`refresh(rt)` — with arbitrarily many refresh and logout calls for any
tokens in between — fails the same way. -/
theorem c3_revoked_refresh_always_rejected
    (verify : String → Except TokenError RefreshPayload) (key : String)
    (now ttl : Nat) (st : AuthState) (rt : String) (ops : List AuthOp)
    (hne : rt ≠ "") :
    (rt ∉ st.registry →
      refreshCall verify key now ttl st (some rt) = (.error .revoked, st)) ∧
    (refreshCall verify key now ttl
        (runAuthOps verify key now ttl (logoutCall st (some rt)) ops)
        (some rt)).1 = .error .revoked := by
  constructor
  · intro h
    exact refresh_rejects_unregistered verify key now ttl st rt hne h
  · have h1 : rt ∉ (logoutCall st (some rt)).registry :=
      not_mem_registry_after_own_logout st rt hne
    have h2 : rt ∉
        (runAuthOps verify key now ttl (logoutCall st (some rt)) ops).registry :=
      not_mem_registry_after_ops verify key now ttl _ ops rt h1
    rw [refresh_rejects_unregistered verify key now ttl _ rt hne h2]

/-- C3 witness: the main revocation theorem applied to a concrete state
whose registry holds the token `tok-1`, a verifier that accepts every
token, and one interleaved refresh of a different token. -/
theorem c3_revoked_refresh_always_rejected_witness :
    ("tok-1" ∉ demoAuthState.registry →
      refreshCall demoVerify "k" 0 3600 demoAuthState (some "tok-1")
        = (.error .revoked, demoAuthState)) ∧
    (refreshCall demoVerify "k" 0 3600
        (runAuthOps demoVerify "k" 0 3600
          (logoutCall demoAuthState (some "tok-1"))
          [.refreshOp (some "tok-2"), .logoutOp (some "tok-3")])
        (some "tok-1")).1 = .error .revoked :=
  c3_revoked_refresh_always_rejected demoVerify "k" 0 3600 demoAuthState
    "tok-1" [.refreshOp (some "tok-2"), .logoutOp (some "tok-3")]
    (by decide)

/-- Membership in a conditionally filtered list implies membership in
the underlying list. -/
theorem mem_of_mem_ite_filter {l : List User} {c : Prop} [Decidable c]
    {p : User → Bool} {u : User}
    (h : u ∈ if c then l.filter p else l) : u ∈ l := by
  split at h
  · exact List.mem_of_mem_filter h
  · exact h

/-- C4 counterexample: the single-record read paths do NOT strip the
password hash.  On a store holding one account with hash `hash-alice`,
`findUserByUsername`, `findUserByEmail` and `findUserById` all return
the record with its `passwordHash` field intact, contradicting the
claim that every read operation strips secret material. -/
theorem c4_find_paths_return_hash_counterexample :
    ((findUserByUsername demoUsers "alice").map
        (fun u => u.passwordHash)) = some "hash-alice" ∧
    ((findUserByEmail demoUsers "alice@nitw.edu").map
        (fun u => u.passwordHash)) = some "hash-alice" ∧
    ((findUserById demoUsers "u0").map
        (fun u => u.passwordHash)) = some "hash-alice" ∧
    demoUser.passwordHash = "hash-alice" := by
  decide

/-- C4 amended: of the read operations, only the collection read
`getAllUsers` strips the password hash — every record it returns is the
hash-free projection of a stored record (the single-record find paths
return the stored record verbatim, hash included, as the counterexample
shows). -/
theorem c4_getAllUsers_strips_hashes (users : List User) (f : UserFilters)
    (r : PublicUser) (h : r ∈ getAllUsers users f) :
    ∃ u, u ∈ users ∧ r = stripUser u := by
  simp only [getAllUsers] at h
  rcases List.mem_map.mp h with ⟨u, hu, rfl⟩
  refine ⟨u, ?_, rfl⟩
  cases hact : f.isActive with
  | none =>
    rw [hact] at hu
    exact mem_of_mem_ite_filter (mem_of_mem_ite_filter hu)
  | some b =>
    rw [hact] at hu
    exact mem_of_mem_ite_filter
      (mem_of_mem_ite_filter (List.mem_of_mem_filter hu))

/-- C4 witness: the amended theorem applied to the demo store with no
filters. -/
theorem c4_getAllUsers_strips_hashes_witness :
    ∃ u, u ∈ demoUsers ∧ stripUser demoUser = stripUser u :=
  c4_getAllUsers_strips_hashes demoUsers
    { role := none, department := none, isActive := none }
    (stripUser demoUser) (by decide)

/-- C7: `authenticateUser` succeeds exactly when the identifier
resolves (by email first, then username), the account is active and the
secret matches the stored hash; in that case it returns the resolved
account without its hash.  All other cases — unknown identifier,
inactive account, or password mismatch — yield the same `none`, with no
distinguishing information. -/
theorem c7_authenticateUser_iff (compare : String → String → Bool)
    (users : List User) (identifier password : String) (r : PublicUser) :
    authenticateUser compare users identifier password = some r ↔
      ∃ u, resolveUser users identifier = some u ∧ u.isActive = true ∧
        compare password u.passwordHash = true ∧ r = stripUser u := by
  unfold authenticateUser
  cases h : resolveUser users identifier with
  | none => simp
  | some u =>
    constructor
    · intro heq
      by_cases ha : u.isActive
      · by_cases hc : compare password u.passwordHash
        · refine ⟨u, rfl, ha, hc, ?_⟩
          simp only [ha, hc] at heq
          simp at heq
          exact heq.symm
        · simp [ha, hc] at heq
      · simp [ha] at heq
    · rintro ⟨u', hu', ha', hc', rfl⟩
      obtain rfl : u = u' := by injection hu'
      simp [ha', hc']

/-- C8 counterexample: issuing and verifying a token does NOT always
reproduce the account's public fields.  For an account whose department
is the empty string, the middleware's `decoded.department || null`
coerces the decoded department to `null`, so the resulting principal's
department (`none`) differs from the account's (`some ""`); the same
happens to an empty-string email.  Both tokens are signature-valid and
far from expiry. -/
theorem c8_truthiness_coercion_counterexample :
    authenticateToken "key" 10
        (some (generateAccessToken "key" 0 3600 emptyDeptUser))
      = .ok { userId := "s1", username := "stu", role := "student",
              mspId := some "NITWarangalMSP", department := none,
              email := some "stu@nitw.edu" } ∧
    emptyDeptUser.department = some "" ∧
    authenticateToken "key" 10
        (some (generateAccessToken "key" 0 3600 emptyEmailUser))
      = .ok { userId := "s2", username := "stu2", role := "student",
              mspId := some "NITWarangalMSP", department := some "CSE",
              email := none } ∧
    emptyEmailUser.email = "" := by
  decide

/-- C8 amended: for every account (active or inactive) whose department
and email are not the empty string, verifying the access token issued
for it before the TTL elapses yields exactly the principal carrying the
account's id, username, role, role-derived ledger namespace, department
and email. -/
theorem verifyToken_of_fresh (key : String) (now' : Nat)
    (t : SignedToken) (hkey : t.key = key) (hexp : now' < t.exp) :
    verifyToken key now' t = .ok t.payload := by
  unfold verifyToken
  have h1 : ¬ (t.key ≠ key) := fun hc => hc hkey
  have h2 : ¬ (t.exp ≤ now') := Nat.not_le.mpr hexp
  rw [if_neg h1, if_neg h2]

theorem c8_token_roundtrip (key : String) (now ttl now' : Nat) (a : User)
    (hexp : now' < now + ttl) (hdep : a.department ≠ some "")
    (hmail : a.email ≠ "") :
    authenticateToken key now'
        (some (generateAccessToken key now ttl a))
      = .ok { userId := a.id, username := a.username, role := a.role,
              mspId := getMSPForRole a.role, department := a.department,
              email := some a.email } := by
  unfold authenticateToken
  dsimp only
  rw [verifyToken_of_fresh key now' (generateAccessToken key now ttl a)
    rfl (by simpa [generateAccessToken] using hexp)]
  unfold generateAccessToken principalOfPayload
  cases hd : a.department with
  | none => simp [jsOrNull, jsTruthy, hmail]
  | some d =>
    have hd' : d ≠ "" := fun he => hdep (by rw [hd, he])
    simp [jsOrNull, jsTruthy, hmail, hd']

/-- C8 witness: the amended round-trip theorem applied to a stored
faculty account with non-empty department and email. -/
theorem c8_token_roundtrip_witness :
    authenticateToken "k" 100
        (some (generateAccessToken "k" 0 3600 demoStoredFaculty))
      = .ok { userId := "u7", username := "bob", role := "faculty",
              mspId := none, department := some "CSE",
              email := some "bob@nitw.edu" } :=
  c8_token_roundtrip "k" 0 3600 100 demoStoredFaculty
    (by decide) (by decide) (by decide)

/-- C9: registering the same input twice yields a username conflict on
the second call and leaves the store exactly as the first call left it
(the error is thrown before any mutation). -/
theorem c9_duplicate_register_conflict (hash : String → String)
    (nowMs nowIso nowMs' nowIso' : String) (users users' : List User)
    (d : UserData) (u : PublicUser)
    (h : createUser hash nowMs nowIso users d = (.ok u, users')) :
    createUser hash nowMs' nowIso' users' d
      = (.error (.usernameExists d.username), users') := by
  unfold createUser at h ⊢
  split_ifs at h with h1 h2 h3 h4 h5 <;> try simp at h
  obtain ⟨-, husers⟩ := h
  subst husers
  have hnone : findUserByUsername users d.username = none := by
    cases hfind : findUserByUsername users d.username with
    | none => rfl
    | some v => rw [hfind] at h4; simp at h4
  rw [findUserByUsername] at hnone
  simp [h1, h2, h3, findUserByUsername, List.find?_append, hnone]
  intro hrole
  by_cases hjt : jsTruthy d.department
  · exact hjt
  · exact absurd ⟨hrole, by simpa using hjt⟩ h3

/-- C9 witness: duplicate registration of `demoRegData` against the
store produced by its first registration. -/
theorem c9_duplicate_register_conflict_witness :
    createUser demoHash "88" "t9" [demoCreatedUser] demoRegData
      = (.error (.usernameExists "fresh"), [demoCreatedUser]) :=
  c9_duplicate_register_conflict demoHash "77" "t0" "88" "t9" []
    [demoCreatedUser] demoRegData (stripUser demoCreatedUser) (by decide)

/-- An `updateFirst` success comes from a stored element satisfying the
predicate, and the returned element is its image and is in the new
list. -/
theorem updateFirst_some_spec (p : User → Bool) (f : User → User)
    (l : List User) (r : User) (l' : List User)
    (h : updateFirst p f l = some (r, l')) :
    ∃ u, u ∈ l ∧ p u = true ∧ r = f u ∧ r ∈ l' := by
  induction l generalizing l' with
  | nil => simp [updateFirst] at h
  | cons x xs ih =>
    unfold updateFirst at h
    by_cases hx : p x
    · rw [if_pos hx] at h
      injection h with h'
      rw [Prod.mk.injEq] at h'
      obtain ⟨hr, hl'⟩ := h'
      subst hr; subst hl'
      exact ⟨x, List.mem_cons_self x xs, hx, rfl, List.mem_cons_self _ _⟩
    · rw [if_neg hx] at h
      cases hm : updateFirst p f xs with
      | none => rw [hm] at h; simp at h
      | some rl =>
        obtain ⟨r₀, ys⟩ := rl
        rw [hm] at h
        injection h with h'
        rw [Prod.mk.injEq] at h'
        obtain ⟨hr, hl'⟩ := h'
        subst hr; subst hl'
        obtain ⟨u, hu, hpu, hru, hrin⟩ := ih ys hm
        exact ⟨u, List.mem_cons_of_mem x hu, hpu, hru,
          List.mem_cons_of_mem x hrin⟩

/-- C10: frame property of `updateUser`.  Every successful update comes
from a stored record with the requested id; the stored result keeps the
original `id`, `username`, `role` and `createdAt` (even when the
updates object supplies values for them), keeps the password hash when
no (truthy) password is supplied, stamps `updatedAt`, and changes
`email`, `department` and `isActive` exactly to the supplied values
when present and keeps them otherwise. -/
theorem c10_updateUser_frame (hash : String → String) (nowIso : String)
    (users : List User) (userId : String) (upd : UpdateData)
    (r : PublicUser) (users' : List User)
    (h : updateUser hash nowIso users userId upd = (.ok r, users')) :
    ∃ u n, u ∈ users ∧ n ∈ users' ∧ u.id = userId ∧ r = stripUser n ∧
      n.id = u.id ∧ n.username = u.username ∧ n.role = u.role ∧
      n.createdAt = u.createdAt ∧ n.updatedAt = nowIso ∧
      n.email = upd.email.getD u.email ∧
      n.department = upd.department.getD u.department ∧
      n.isActive = upd.isActive.getD u.isActive ∧
      (jsTruthy upd.password = false → n.passwordHash = u.passwordHash) := by
  unfold updateUser at h
  cases hm : updateFirst (fun v => v.id = userId)
      (applyUpdates hash nowIso upd) users with
  | none => rw [hm] at h; simp at h
  | some rl =>
    obtain ⟨n, us'⟩ := rl
    rw [hm] at h
    rw [Prod.mk.injEq] at h
    obtain ⟨hr, hl'⟩ := h
    injection hr with hr
    subst hl'
    obtain ⟨u, hu, hpu, hn, hnin⟩ :=
      updateFirst_some_spec _ _ users n us' hm
    refine ⟨u, n, hu, hnin, by simpa using hpu, hr.symm, ?_, ?_, ?_, ?_,
      ?_, ?_, ?_, ?_, ?_⟩
    · rw [hn]; simp [applyUpdates]
    · rw [hn]; simp [applyUpdates]
    · rw [hn]; simp [applyUpdates]
    · rw [hn]; simp [applyUpdates]
    · rw [hn]; simp [applyUpdates]
    · rw [hn]; simp [applyUpdates]
    · rw [hn]; simp [applyUpdates]
    · rw [hn]; simp [applyUpdates]
    · intro hp; rw [hn]; simp [applyUpdates, hp]

/-- C10 witness: the frame theorem applied to a concrete store and an
updates object that changes email and active flag and also tries to
overwrite `id`, `username`, `role` and `createdAt`. -/
theorem c10_updateUser_frame_witness :
    ∃ u n, u ∈ [demoStoredFaculty] ∧ n ∈ [demoUpdatedFaculty] ∧
      u.id = "u7" ∧ stripUser demoUpdatedFaculty = stripUser n ∧
      n.id = u.id ∧ n.username = u.username ∧ n.role = u.role ∧
      n.createdAt = u.createdAt ∧ n.updatedAt = "t1" ∧
      n.email = demoUpd.email.getD u.email ∧
      n.department = demoUpd.department.getD u.department ∧
      n.isActive = demoUpd.isActive.getD u.isActive ∧
      (jsTruthy demoUpd.password = false →
        n.passwordHash = u.passwordHash) :=
  c10_updateUser_frame demoHash "t1" [demoStoredFaculty] "u7" demoUpd
    (stripUser demoUpdatedFaculty) [demoUpdatedFaculty] (by decide)

end AcademicRecords
